import Mathlib

/-!
Verification of the SiteScout financial model (src/app.py).

The numeric model uses exact rational arithmetic (`ℚ`) in place of Python
floats; all derived-metric identities below are statements of exact
arithmetic. Python `int()` conversion (truncation toward zero) is modelled
by `Int.tdiv` on the numerator/denominator of a rational.
-/

/-- The dictionary returned by `FinancialEngine.calculate_roi`
(src/app.py lines 95-99), with its nested `costs` mapping flattened into
the four fields `costRent`, `costCOGS`, `costStaff`, `costMisc`. -/
structure Report where
  rev : ℚ
  profit : ℚ
  margin : ℚ
  breakeven : ℚ
  rent_cov : ℚ
  opex_ratio : ℚ
  coc : ℚ
  costRent : ℚ
  costCOGS : ℚ
  costStaff : ℚ
  costMisc : ℚ
  deriving DecidableEq, Repr

/-- `FinancialEngine.calculate_roi` (src/app.py lines 82-99), translated
line by line over exact rationals. -/
def calculate_roi (area rent capex ticket orders staff_cost cogs_pct : ℚ) :
    Report :=
  let monthly_rev := orders * ticket * 30
  let monthly_rent := area * rent
  let monthly_cogs := monthly_rev * (cogs_pct / 100)
  let monthly_opex := monthly_rent + staff_cost + (monthly_rev * 0.05)
  let net_profit := monthly_rev - monthly_cogs - monthly_opex
  let margin := if monthly_rev > 0 then (net_profit / monthly_rev) * 100 else 0
  let breakeven := if net_profit > 0 then capex / net_profit else 999
  let rent_coverage := if monthly_rent > 0 then monthly_rev / monthly_rent else 0
  let opex_ratio := if monthly_rev > 0 then (monthly_opex / monthly_rev) * 100 else 0
  let coc_return := if capex > 0 then (net_profit * 12) / capex * 100 else 0
  { rev := monthly_rev, profit := net_profit, margin := margin,
    breakeven := breakeven, rent_cov := rent_coverage,
    opex_ratio := opex_ratio, coc := coc_return,
    costRent := monthly_rent, costCOGS := monthly_cogs,
    costStaff := staff_cost, costMisc := monthly_rev * 0.05 }

/-- The verdict ternary of `create_investor_deck` (src/app.py line 148):
`"Strong Buy" if rent_cov > 4 else ("Cautious Hold" if rent_cov > 2 else
"High Risk")`. -/
def verdict (rent_cov : ℚ) : String :=
  if rent_cov > 4 then "Strong Buy"
  else if rent_cov > 2 then "Cautious Hold"
  else "High Risk"

/-- Python `int()` applied to a rational: truncation toward zero. -/
def ratTruncToZero (q : ℚ) : ℤ := Int.tdiv q.num q.den

/-- The "units needed to cover rent" quantity of the Strategic Verdict
info text (src/app.py line 276): `int(fin['costs']['Rent']/(ticket*0.3))`.
The division is unguarded in the source; the input widget keeps
`ticket >= 50`, so the divisor is positive in every reachable state. -/
def unitsToCoverRent (monthlyRent ticket : ℚ) : ℤ :=
  ratTruncToZero (monthlyRent / (ticket * 0.3))

/-- The triple returned by `LocationEngine.get_coords` (src/app.py lines
63-72): `(lat, lon, display_name)` on success, `(None, None, None)` on any
failure. -/
structure GeoResult where
  lat : Option ℚ
  lon : Option ℚ
  addr : Option String

/-- Python truthiness of an `Optional[float]`: `None` and `0.0` are falsy,
every other value is truthy. -/
def pyTruthy : Option ℚ → Bool
  | none => false
  | some x => decide (x ≠ 0)

/-- The dashboard gate `if lat:` (src/app.py line 237): the financial
report is computed exactly when the latitude of the geocoding result is
truthy. -/
def dashboardComputesReport (g : GeoResult) : Bool := pyTruthy g.lat

/-- C1: for every finite input, the derived-metrics chain is exactly
`monthlyRevenue = dailyOrders * avgTicketPrice * 30`,
`monthlyRent = areaSqft * rentPerSqft`,
`monthlyCogs = monthlyRevenue * (cogsPercent/100)`,
`miscCost = monthlyRevenue * 0.05`,
`monthlyOpex = monthlyRent + monthlyStaffCost + miscCost`, and
`netProfit = monthlyRevenue - monthlyCogs - monthlyOpex`. -/
theorem C1_metrics_chain (area rent capex ticket orders staff_cost cogs_pct : ℚ) :
    (calculate_roi area rent capex ticket orders staff_cost cogs_pct).rev =
      orders * ticket * 30 ∧
    (calculate_roi area rent capex ticket orders staff_cost cogs_pct).costRent =
      area * rent ∧
    (calculate_roi area rent capex ticket orders staff_cost cogs_pct).costCOGS =
      (calculate_roi area rent capex ticket orders staff_cost cogs_pct).rev *
        (cogs_pct / 100) ∧
    (calculate_roi area rent capex ticket orders staff_cost cogs_pct).costMisc =
      (calculate_roi area rent capex ticket orders staff_cost cogs_pct).rev * 0.05 ∧
    (calculate_roi area rent capex ticket orders staff_cost cogs_pct).costStaff =
      staff_cost ∧
    (calculate_roi area rent capex ticket orders staff_cost cogs_pct).profit =
      (calculate_roi area rent capex ticket orders staff_cost cogs_pct).rev -
      (calculate_roi area rent capex ticket orders staff_cost cogs_pct).costCOGS -
      ((calculate_roi area rent capex ticket orders staff_cost cogs_pct).costRent +
        staff_cost +
        (calculate_roi area rent capex ticket orders staff_cost cogs_pct).costMisc) := by
  refine ⟨rfl, rfl, rfl, rfl, rfl, rfl⟩

/-- C8: accounting identity — `Rent + COGS + Staff + Misc` of the cost
breakdown equals `monthlyRevenue - netProfit`, exactly, for every input. -/
theorem C8_accounting_identity
    (area rent capex ticket orders staff_cost cogs_pct : ℚ) :
    (calculate_roi area rent capex ticket orders staff_cost cogs_pct).costRent +
    (calculate_roi area rent capex ticket orders staff_cost cogs_pct).costCOGS +
    (calculate_roi area rent capex ticket orders staff_cost cogs_pct).costStaff +
    (calculate_roi area rent capex ticket orders staff_cost cogs_pct).costMisc =
    (calculate_roi area rent capex ticket orders staff_cost cogs_pct).rev -
    (calculate_roi area rent capex ticket orders staff_cost cogs_pct).profit := by
  simp only [calculate_roi]
  ring

/-- C5: the verdict tier is chosen from `rentCoverageRatio` as: `> 4` gives
"Strong Buy", `> 2` and `<= 4` gives "Cautious Hold", `<= 2` gives
"High Risk". -/
theorem C5_verdict_tiers (rc : ℚ) :
    (4 < rc → verdict rc = "Strong Buy") ∧
    (2 < rc → rc ≤ 4 → verdict rc = "Cautious Hold") ∧
    (rc ≤ 2 → verdict rc = "High Risk") := by
  unfold verdict
  refine ⟨fun h4 => if_pos h4, fun h2 h4 => ?_, fun h2 => ?_⟩
  · rw [if_neg (by exact not_lt.mpr h4), if_pos h2]
  · rw [if_neg (by exact not_lt.mpr (h2.trans (by norm_num))),
      if_neg (by exact not_lt.mpr h2)]

theorem C5_verdict_tiers_witness :
    verdict 5 = "Strong Buy" ∧ verdict 3 = "Cautious Hold" ∧
    verdict 1 = "High Risk" :=
  ⟨(C5_verdict_tiers 5).1 (by norm_num),
   (C5_verdict_tiers 3).2.1 (by norm_num) (by norm_num),
   (C5_verdict_tiers 1).2.2 (by norm_num)⟩

/-- C6 counterexample: at `rentCoverageRatio = 2.0` the code's verdict is
"High Risk", not the "Cautious Hold" the claim asserts (2 > 2 is false, so
the final else branch is taken). -/
theorem C6_boundary_counterexample :
    verdict 2 = "High Risk" ∧ verdict 2 ≠ "Cautious Hold" := by
  refine ⟨rfl, by decide⟩

/-- C6 (amended): at exactly 4.0 the verdict is "Cautious Hold" (strict `>`
excludes "Strong Buy"); at exactly 2.0 the verdict is "High Risk" (strict
`>` excludes "Cautious Hold"). -/
theorem C6_boundaries_amended :
    verdict 4 = "Cautious Hold" ∧ verdict 2 = "High Risk" := ⟨rfl, rfl⟩

/-- Helper: truncation toward zero agrees with the floor on nonnegative
rationals. -/
theorem trunc_eq_floor (q : ℚ) (h : 0 ≤ q) : ratTruncToZero q = ⌊q⌋ := by
  unfold ratTruncToZero
  rw [Int.tdiv_eq_ediv (Rat.num_nonneg.mpr h) (Int.ofNat_nonneg q.den)]
  exact (Rat.floor_def).symm

/-- C2: with `netProfit > 0` (and `capitalInvested > 0` for positivity),
`breakevenMonths = capitalInvested / netProfit` exactly and is positive;
with `netProfit <= 0`, `breakevenMonths` is the sentinel 999 regardless of
`capitalInvested`. -/
theorem C2_breakeven_months
    (area rent capex ticket orders staff_cost cogs_pct : ℚ) :
    (0 < capex →
      0 < (calculate_roi area rent capex ticket orders staff_cost cogs_pct).profit →
      (calculate_roi area rent capex ticket orders staff_cost cogs_pct).breakeven =
        capex /
          (calculate_roi area rent capex ticket orders staff_cost cogs_pct).profit ∧
      0 < (calculate_roi area rent capex ticket orders staff_cost cogs_pct).breakeven) ∧
    ((calculate_roi area rent capex ticket orders staff_cost cogs_pct).profit ≤ 0 →
      (calculate_roi area rent capex ticket orders staff_cost cogs_pct).breakeven =
        999) := by
  constructor
  · intro hc hp
    dsimp only [calculate_roi] at hp ⊢
    rw [if_pos hp]
    exact ⟨rfl, div_pos hc hp⟩
  · intro hp
    dsimp only [calculate_roi] at hp ⊢
    rw [if_neg (not_lt.mpr hp)]

theorem C2_breakeven_months_witness :
    ((calculate_roi 1200 150 2500000 450 85 150000 30).breakeven =
        2500000 / 415875 ∧
      0 < (calculate_roi 1200 150 2500000 450 85 150000 30).breakeven) ∧
    (calculate_roi 1200 150 2500000 450 0 150000 30).breakeven = 999 := by
  have h := (C2_breakeven_months 1200 150 2500000 450 85 150000 30).1
    (by norm_num) (by norm_num [calculate_roi])
  have h2 := (C2_breakeven_months 1200 150 2500000 450 0 150000 30).2
    (by norm_num [calculate_roi])
  refine ⟨⟨?_, h.2⟩, h2⟩
  rw [h.1]
  norm_num [calculate_roi]

/-- C3: every division in `calculate_roi` is guarded — `marginPercent` and
`opexRatioPercent` are 0 when `monthlyRevenue = 0`, `rentCoverageRatio` is
0 when `monthlyRent = 0`, and `cashOnCashReturnPercent` is 0 when
`capitalInvested = 0`; the function is total over exact arithmetic. -/
theorem C3_division_guards
    (area rent capex ticket orders staff_cost cogs_pct : ℚ) :
    ((calculate_roi area rent capex ticket orders staff_cost cogs_pct).rev = 0 →
      (calculate_roi area rent capex ticket orders staff_cost cogs_pct).margin = 0 ∧
      (calculate_roi area rent capex ticket orders staff_cost cogs_pct).opex_ratio = 0) ∧
    ((calculate_roi area rent capex ticket orders staff_cost cogs_pct).costRent = 0 →
      (calculate_roi area rent capex ticket orders staff_cost cogs_pct).rent_cov = 0) ∧
    (capex = 0 →
      (calculate_roi area rent capex ticket orders staff_cost cogs_pct).coc = 0) := by
  refine ⟨fun h => ?_, fun h => ?_, fun h => ?_⟩ <;>
    dsimp only [calculate_roi] at h ⊢ <;> simp [h]

theorem C3_division_guards_witness :
    (calculate_roi 0 0 0 450 0 150000 30).margin = 0 ∧
    (calculate_roi 0 0 0 450 0 150000 30).opex_ratio = 0 ∧
    (calculate_roi 0 0 0 450 0 150000 30).rent_cov = 0 ∧
    (calculate_roi 0 0 0 450 0 150000 30).coc = 0 := by
  have h := C3_division_guards 0 0 0 450 0 150000 30
  have h1 := h.1 (by norm_num [calculate_roi])
  exact ⟨h1.1, h1.2, h.2.1 (by norm_num [calculate_roi]), h.2.2 rfl⟩

/-- C4: with `dailyOrders = 0` (and nonnegative area, rent and staff cost,
per the data-model invariants), `monthlyRevenue = 0`, `marginPercent = 0`,
`opexRatioPercent = 0`, `rentCoverageRatio = 0` and
`breakevenMonths = 999`. -/
theorem C4_zero_orders (area rent capex ticket staff_cost cogs_pct : ℚ)
    (harea : 0 ≤ area) (hrent : 0 ≤ rent) (hstaff : 0 ≤ staff_cost) :
    (calculate_roi area rent capex ticket 0 staff_cost cogs_pct).rev = 0 ∧
    (calculate_roi area rent capex ticket 0 staff_cost cogs_pct).margin = 0 ∧
    (calculate_roi area rent capex ticket 0 staff_cost cogs_pct).opex_ratio = 0 ∧
    (calculate_roi area rent capex ticket 0 staff_cost cogs_pct).rent_cov = 0 ∧
    (calculate_roi area rent capex ticket 0 staff_cost cogs_pct).breakeven = 999 := by
  refine ⟨by simp [calculate_roi], by simp [calculate_roi],
    by simp [calculate_roi], by simp [calculate_roi], ?_⟩
  dsimp only [calculate_roi]
  rw [if_neg]
  push_neg
  nlinarith [mul_nonneg harea hrent]

theorem C4_zero_orders_witness :
    (calculate_roi 1200 150 2500000 450 0 150000 30).rev = 0 ∧
    (calculate_roi 1200 150 2500000 450 0 150000 30).margin = 0 ∧
    (calculate_roi 1200 150 2500000 450 0 150000 30).opex_ratio = 0 ∧
    (calculate_roi 1200 150 2500000 450 0 150000 30).rent_cov = 0 ∧
    (calculate_roi 1200 150 2500000 450 0 150000 30).breakeven = 999 :=
  C4_zero_orders 1200 150 2500000 450 150000 30
    (by norm_num) (by norm_num) (by norm_num)

/-- C7 counterexample: at `monthlyRent = 180000` and `avgTicketPrice = 450`
(the spec's own scenario, `areaSqft = 1200`, `rentPerSqft = 150`) the
displayed quantity is `int(180000 / 135) = 1333`, while
`ceil(180000 / 135) = 1334`: the code truncates, it does not take the
ceiling. -/
theorem C7_units_counterexample :
    unitsToCoverRent 180000 450 = 1333 ∧
    ⌈(180000 : ℚ) / (450 * 0.3)⌉ = 1334 ∧
    unitsToCoverRent 180000 450 ≠ ⌈(180000 : ℚ) / (450 * 0.3)⌉ := by
  have h1 : unitsToCoverRent 180000 450 = 1333 := by
    unfold unitsToCoverRent
    rw [trunc_eq_floor _ (by norm_num), Int.floor_eq_iff]
    norm_num
  have h2 : ⌈(180000 : ℚ) / (450 * 0.3)⌉ = 1334 := by
    rw [Int.ceil_eq_iff]
    norm_num
  exact ⟨h1, h2, by rw [h1, h2]; decide⟩

/-- C7 (amended): for `avgTicketPrice > 0` and nonnegative `monthlyRent`,
the "orders needed to cover rent" quantity is the truncation toward zero
(Python `int()`) of `monthlyRent / (avgTicketPrice * 0.3)` — the floor,
not the ceiling; the source performs the division unguarded, and the
`avgTicketPrice * 0.3 = 0` case is unreachable only because the input
widget keeps `avgTicketPrice >= 50`. -/
theorem C7_units_floor_amended (monthlyRent ticket : ℚ)
    (hrent : 0 ≤ monthlyRent) (hticket : 0 < ticket) :
    unitsToCoverRent monthlyRent ticket =
      ⌊monthlyRent / (ticket * 0.3)⌋ := by
  unfold unitsToCoverRent
  exact trunc_eq_floor _ (div_nonneg hrent (by positivity))

theorem C7_units_floor_amended_witness :
    unitsToCoverRent 180000 450 = ⌊(180000 : ℚ) / (450 * 0.3)⌋ :=
  C7_units_floor_amended 180000 450 (by norm_num) (by norm_num)

/-- C9: the engine is deterministic — two calls of `calculate_roi` with
equal values for every assumption return equal reports; the body reads
nothing but its seven parameters. -/
theorem C9_deterministic
    (a1 r1 c1 t1 o1 s1 g1 a2 r2 c2 t2 o2 s2 g2 : ℚ)
    (ha : a1 = a2) (hr : r1 = r2) (hc : c1 = c2) (ht : t1 = t2)
    (ho : o1 = o2) (hs : s1 = s2) (hg : g1 = g2) :
    calculate_roi a1 r1 c1 t1 o1 s1 g1 = calculate_roi a2 r2 c2 t2 o2 s2 g2 := by
  rw [ha, hr, hc, ht, ho, hs, hg]

theorem C9_deterministic_witness :
    calculate_roi 1200 150 5000000 450 120 150000 30 =
      calculate_roi 1200 150 5000000 450 120 150000 30 :=
  C9_deterministic 1200 150 5000000 450 120 150000 30
    1200 150 5000000 450 120 150000 30 rfl rfl rfl rfl rfl rfl rfl

/-- C10: the dashboard gate `if lat:` tests Python truthiness, so a
geocoding result with latitude exactly 0.0 takes the location-not-found
branch and no report is computed; a report is computed exactly for results
whose latitude is non-None and non-zero. -/
theorem C10_zero_latitude_gate :
    (∀ lon addr, dashboardComputesReport ⟨some 0, lon, addr⟩ = false) ∧
    (∀ lon addr, dashboardComputesReport ⟨none, lon, addr⟩ = false) ∧
    (∀ (x : ℚ) lon addr,
      dashboardComputesReport ⟨some x, lon, addr⟩ = true → x ≠ 0) ∧
    (∀ (x : ℚ) lon addr, x ≠ 0 →
      dashboardComputesReport ⟨some x, lon, addr⟩ = true) := by
  refine ⟨fun lon addr => ?_, fun lon addr => rfl,
    fun x lon addr h => ?_, fun x lon addr h => ?_⟩
  · simp [dashboardComputesReport, pyTruthy]
  · simpa [dashboardComputesReport, pyTruthy] using h
  · simp [dashboardComputesReport, pyTruthy, h]

theorem C10_zero_latitude_gate_witness :
    dashboardComputesReport ⟨some 0, some 77, some "Null Island"⟩ = false ∧
    dashboardComputesReport
      ⟨some (1297 / 100), some (7759 / 100), some "Bangalore"⟩ = true :=
  ⟨C10_zero_latitude_gate.1 (some 77) (some "Null Island"),
   C10_zero_latitude_gate.2.2.2 (1297 / 100) (some (7759 / 100))
     (some "Bangalore") (by norm_num)⟩
